import Mathlib

/- Shallow embedding of the alias-ptr crate.

   The crate has two source files. src/lib.rs defines AliasPtr, an untracked
   shared-ownership pointer wrapping a NonNull address, with new, from_raw,
   From Box, clone, copy, delete, as_ptr, Deref and Send/Sync impls.
   src/box.rs defines AliasBox, a unique-ownership pointer allowing aliases,
   with new, from_raw, From Box, a Drop impl, alias, as_ptr, Deref and
   Send/Sync impls.

   The heap is modelled as a bump allocator over Nat addresses (the real
   allocator never hands out the null address 0), a memory map, and a counter
   of how many times the destructor of the stored type has run. Raw pointer
   operations whose violated preconditions are undefined behavior return a
   RawOutcome, distinguishing a defined result, undefined behavior, and a
   deterministic fatal process termination such as a panic or abort. -/

namespace AliasPtrModel

/-- Outcome of a raw-pointer operation: a defined result, undefined behavior
from a violated unchecked precondition, or a deterministic fatal termination
of the process (a panic or abort). -/
inductive RawOutcome (A : Type) where
  | ok : A → RawOutcome A
  | ub : RawOutcome A
  | abort : RawOutcome A
  deriving DecidableEq

/-- The modelled global allocator heap for values of type T: a bump pointer
handing out fresh addresses, the memory map, and a counter of destructor runs
of T performed so far. -/
structure Heap (T : Type) where
  next : Nat
  mem : Nat → Option T
  drops : Nat

/-- The empty heap: nothing allocated, no destructor has run, and the first
fresh address is 1, because a real allocator never returns the null address. -/
def Heap.empty (T : Type) : Heap T :=
  ⟨1, fun _ => none, 0⟩

/-- Heap well-formedness: the bump pointer never hands out the null address. -/
def Heap.WF {T : Type} (h : Heap T) : Prop := 1 ≤ h.next

instance {T : Type} (h : Heap T) : Decidable h.WF :=
  inferInstanceAs (Decidable (1 ≤ h.next))

/-- Box::new followed by Box::into_raw: allocate a fresh cell holding x and
return its raw address together with the updated heap. -/
def boxNew {T : Type} (h : Heap T) (x : T) : Nat × Heap T :=
  (h.next, ⟨h.next + 1, fun a => if a = h.next then some x else h.mem a, h.drops⟩)

/-- drop(Box::from_raw(a)): run the destructor of T on the value stored at a
and free the storage. This is the body of AliasPtr::delete (src/lib.rs
140-142) and of the Drop impl of AliasBox (src/box.rs 85-93). -/
def boxFromRawDrop {T : Type} (h : Heap T) (a : Nat) : Heap T :=
  ⟨h.next, fun b => if b = a then none else h.mem b, h.drops + 1⟩

/-- Cell::set performed through a handle whose address is a. std::cell::Cell
is the internal-mutability collaborator the crate's tests store inside the
handles; setting it overwrites the live value at a. A write through a
dangling address is modelled as stuck. -/
def cellSet {T : Type} (h : Heap T) (a : Nat) (x : T) : Heap T :=
  if (h.mem a).isSome then
    ⟨h.next, fun b => if b = a then some x else h.mem b, h.drops⟩
  else h

/-- NonNull::new_unchecked: wraps an address that the caller asserts is
non-null; calling it on the null address is undefined behavior, not a checked
failure, and no input makes it terminate the process. -/
def nonNullNewUnchecked (p : Nat) : RawOutcome Nat :=
  if p = 0 then RawOutcome.ub else RawOutcome.ok p

/-- AliasPtr of T (src/lib.rs 63-64): a repr(transparent) wrapper of a
NonNull address. The type parameter is phantom in the model; the payload is
the wrapped address. -/
structure AliasPtr (T : Type) where
  ptr : Nat
  deriving DecidableEq

namespace AliasPtr

/-- AliasPtr::from_raw (src/lib.rs 114-116): Self(NonNull::new_unchecked(p)).
The safety precondition that p is non-null is unchecked: violating it is
undefined behavior. -/
def from_raw (T : Type) (p : Nat) : RawOutcome (AliasPtr T) :=
  match nonNullNewUnchecked p with
  | RawOutcome.ok q => RawOutcome.ok ⟨q⟩
  | RawOutcome.ub => RawOutcome.ub
  | RawOutcome.abort => RawOutcome.abort

/-- From Box of T for AliasPtr (src/lib.rs 80-85):
from_raw(Box::into_raw(item)), where the argument is the raw address the Box
surrendered. -/
def fromBox (T : Type) (b : Nat) : RawOutcome (AliasPtr T) :=
  from_raw T b

/-- AliasPtr::new (src/lib.rs 100-102): AliasPtr::from(Box::new(x)). -/
def new {T : Type} (x : T) (h : Heap T) : RawOutcome (AliasPtr T) × Heap T :=
  let r := boxNew h x
  (fromBox T r.1, r.2)

/-- Clone for AliasPtr (src/lib.rs 68-73): Self(self.0), copying the pointer
without copying the underlying data. -/
def clone {T : Type} (p : AliasPtr T) : AliasPtr T :=
  ⟨p.ptr⟩

/-- AliasPtr::copy (src/lib.rs 124-126): self.clone(). -/
def copy {T : Type} (p : AliasPtr T) : AliasPtr T :=
  clone p

/-- AliasPtr::delete (src/lib.rs 140-142): Box::from_raw(self.0.as_ptr()) is
constructed and immediately dropped. The receiver is a mutable reference, not
a by-value move, and the body never reassigns the pointer field, so the first
component of the result models self as it stands after the call. -/
def delete {T : Type} (p : AliasPtr T) (h : Heap T) : AliasPtr T × Heap T :=
  (p, boxFromRawDrop h p.ptr)

/-- AliasPtr::as_ptr (src/lib.rs 147-149): expose the wrapped address. -/
def as_ptr {T : Type} (p : AliasPtr T) : Nat :=
  p.ptr

/-- Deref for AliasPtr (src/lib.rs 152-161): read the pointed-to value; none
models the undefined-behavior read through a dangling handle. -/
def deref {T : Type} (p : AliasPtr T) (h : Heap T) : Option T :=
  h.mem p.ptr

/-- unsafe impl Send for AliasPtr of T where T: Send + Sync
(src/lib.rs 163), as a predicate on the capability flags of T. -/
def sendBound (tSend tSync : Bool) : Bool :=
  tSend && tSync

/-- unsafe impl Sync for AliasPtr of T where T: Send + Sync
(src/lib.rs 164), as a predicate on the capability flags of T. -/
def syncBound (tSend tSync : Bool) : Bool :=
  tSend && tSync

end AliasPtr

/-- AliasBox of T (src/box.rs 66-67): a repr(transparent) wrapper of a
NonNull address, owning its target. -/
structure AliasBox (T : Type) where
  ptr : Nat
  deriving DecidableEq

namespace AliasBox

/-- AliasBox::from_raw (src/box.rs 102-104): Self(NonNull::new_unchecked(p)).
The safety precondition that p is non-null is unchecked: violating it is
undefined behavior. -/
def from_raw (T : Type) (p : Nat) : RawOutcome (AliasBox T) :=
  match nonNullNewUnchecked p with
  | RawOutcome.ok q => RawOutcome.ok ⟨q⟩
  | RawOutcome.ub => RawOutcome.ub
  | RawOutcome.abort => RawOutcome.abort

/-- From Box of T for AliasBox (src/box.rs 69-74):
from_raw(Box::into_raw(item)). -/
def fromBox (T : Type) (b : Nat) : RawOutcome (AliasBox T) :=
  from_raw T b

/-- AliasBox::new (src/box.rs 80-82): Self::from(Box::new(x)). -/
def new {T : Type} (x : T) (h : Heap T) : RawOutcome (AliasBox T) × Heap T :=
  let r := boxNew h x
  (fromBox T r.1, r.2)

/-- Drop for AliasBox (src/box.rs 85-93):
drop(Box::from_raw(self.0.as_ptr())). -/
def drop {T : Type} (b : AliasBox T) (h : Heap T) : Heap T :=
  boxFromRawDrop h b.ptr

/-- AliasBox::alias (src/box.rs 116-118):
AliasPtr::from_raw(self.0.as_ptr()). The argument comes out of the NonNull
field of an existing handle, so it is non-null at the type level and the
call takes the defined branch of from_raw: the alias wraps the same address. -/
def «alias» {T : Type} (b : AliasBox T) : AliasPtr T :=
  ⟨b.ptr⟩

/-- AliasBox::as_ptr (src/box.rs 126-128): expose the wrapped address. -/
def as_ptr {T : Type} (b : AliasBox T) : Nat :=
  b.ptr

/-- Deref for AliasBox (src/box.rs 131-140): read the pointed-to value; none
models the undefined-behavior read through a dangling handle. -/
def deref {T : Type} (b : AliasBox T) (h : Heap T) : Option T :=
  h.mem b.ptr

/-- unsafe impl Send for AliasBox of T where T: Send + Sync
(src/box.rs 142), as a predicate on the capability flags of T. -/
def sendBound (tSend tSync : Bool) : Bool :=
  tSend && tSync

/-- unsafe impl Sync for AliasBox of T where T: Sync (src/box.rs 143): this
impl deliberately does not require the Send capability of T. -/
def syncBound (_tSend tSync : Bool) : Bool :=
  tSync

end AliasBox

/-- A concrete one-allocation heap over Nat used by witnesses: address 1
holds the value 7, the next fresh address is 2. -/
def heap1 : Heap Nat :=
  ⟨2, fun a => if a = 1 then some 7 else none, 0⟩

/-- Under a well-formed heap the fresh address handed to AliasPtr::new by the
Box is non-null, so the From Box conversion takes the defined branch. -/
theorem aliasPtr_new_fst {T : Type} (x : T) (h : Heap T) (hwf : h.WF) :
    (AliasPtr.new x h).1 = RawOutcome.ok ⟨h.next⟩ := by
  have hne : h.next ≠ 0 := Nat.one_le_iff_ne_zero.mp hwf
  simp [AliasPtr.new, AliasPtr.fromBox, AliasPtr.from_raw, boxNew,
    nonNullNewUnchecked, hne]

/-- Under a well-formed heap the fresh address handed to AliasBox::new by the
Box is non-null, so the From Box conversion takes the defined branch. -/
theorem aliasBox_new_fst {T : Type} (x : T) (h : Heap T) (hwf : h.WF) :
    (AliasBox.new x h).1 = RawOutcome.ok ⟨h.next⟩ := by
  have hne : h.next ≠ 0 := Nat.one_le_iff_ne_zero.mp hwf
  simp [AliasBox.new, AliasBox.fromBox, AliasBox.from_raw, boxNew,
    nonNullNewUnchecked, hne]

/-- C1: AliasPtr::copy returns a handle holding the same address as p; it is
a total pure function of the pointer alone, so it cannot fail and leaves the
allocation untouched; and when T provides internal mutability, a Cell::set
through the copy is observed when dereferencing any handle q sharing the
address, the original included, and a set through such a q is observed when
dereferencing the copy. -/
theorem copy_same_address_aliasing {T : Type} (p q : AliasPtr T) (h : Heap T)
    (x : T) (hq : q.ptr = p.ptr) (hlive : (h.mem p.ptr).isSome) :
    (AliasPtr.copy p).ptr = p.ptr ∧
    AliasPtr.deref q (cellSet h (AliasPtr.copy p).ptr x) = some x ∧
    AliasPtr.deref (AliasPtr.copy p) (cellSet h q.ptr x) = some x := by
  refine ⟨rfl, ?_, ?_⟩
  · simp [AliasPtr.deref, AliasPtr.copy, AliasPtr.clone, cellSet, hlive, hq]
  · simp [AliasPtr.deref, AliasPtr.copy, AliasPtr.clone, cellSet, hq, hlive]

theorem copy_same_address_aliasing_witness :
    ((heap1.mem (1 : Nat)).isSome = true) ∧
    ((AliasPtr.copy (⟨1⟩ : AliasPtr Nat)).ptr = (⟨1⟩ : AliasPtr Nat).ptr ∧
     AliasPtr.deref (⟨1⟩ : AliasPtr Nat)
       (cellSet heap1 (AliasPtr.copy (⟨1⟩ : AliasPtr Nat)).ptr 42) = some 42 ∧
     AliasPtr.deref (AliasPtr.copy (⟨1⟩ : AliasPtr Nat))
       (cellSet heap1 (⟨1⟩ : AliasPtr Nat).ptr 42) = some 42) :=
  ⟨by decide, copy_same_address_aliasing ⟨1⟩ ⟨1⟩ heap1 42 rfl (by decide)⟩

/-- C2 fails on the code as stated: on the null address both address-wrapping
constructors exhibit undefined behavior through NonNull::new_unchecked;
neither terminates the process with a fatal check, so the crate exposes no
checking constructor variant. -/
theorem from_raw_null_is_ub_not_abort :
    AliasPtr.from_raw Nat 0 = RawOutcome.ub ∧
    AliasBox.from_raw Nat 0 = RawOutcome.ub ∧
    AliasPtr.from_raw Nat 0 ≠ RawOutcome.abort ∧
    AliasBox.from_raw Nat 0 ≠ RawOutcome.abort := by
  decide

/-- C2 amended: the crate exposes two address-wrapping constructors,
AliasPtr::from_raw and AliasBox::from_raw, and both are trusting: any
non-null address yields a usable handle wrapping that address, while passing
the null address is undefined behavior rather than a fatal check that
terminates the process. -/
theorem from_raw_both_trusting {T : Type} (p : Nat) (hp : p ≠ 0) :
    AliasPtr.from_raw T p = RawOutcome.ok ⟨p⟩ ∧
    AliasBox.from_raw T p = RawOutcome.ok ⟨p⟩ ∧
    AliasPtr.from_raw T 0 = RawOutcome.ub ∧
    AliasBox.from_raw T 0 = RawOutcome.ub := by
  simp [AliasPtr.from_raw, AliasBox.from_raw, nonNullNewUnchecked, hp]

theorem from_raw_both_trusting_witness :
    ((5 : Nat) ≠ 0) ∧
    (AliasPtr.from_raw Nat 5 = RawOutcome.ok ⟨5⟩ ∧
     AliasBox.from_raw Nat 5 = RawOutcome.ok ⟨5⟩ ∧
     AliasPtr.from_raw Nat 0 = RawOutcome.ub ∧
     AliasBox.from_raw Nat 0 = RawOutcome.ub) :=
  ⟨by decide, from_raw_both_trusting 5 (by decide)⟩

/-- C3: constructing a handle and then performing the single release runs the
destructor of T exactly once: the destructor counter rises by exactly one,
both for AliasPtr::new followed by delete and for AliasBox::new followed by
its Drop impl. -/
theorem construct_release_runs_destructor_once {T : Type} (x : T) (h : Heap T)
    (hwf : h.WF) :
    (AliasPtr.new x h).1 = RawOutcome.ok ⟨h.next⟩ ∧
    ((AliasPtr.delete ⟨h.next⟩ (AliasPtr.new x h).2).2).drops = h.drops + 1 ∧
    (AliasBox.new x h).1 = RawOutcome.ok ⟨h.next⟩ ∧
    (AliasBox.drop ⟨h.next⟩ (AliasBox.new x h).2).drops = h.drops + 1 := by
  refine ⟨aliasPtr_new_fst x h hwf, ?_, aliasBox_new_fst x h hwf, ?_⟩
  · simp [AliasPtr.new, AliasPtr.delete, boxFromRawDrop, boxNew]
  · simp [AliasBox.new, AliasBox.drop, boxFromRawDrop, boxNew]

theorem construct_release_runs_destructor_once_witness :
    (Heap.empty Nat).WF ∧
    ((AliasPtr.new 7 (Heap.empty Nat)).1 = RawOutcome.ok ⟨1⟩ ∧
     ((AliasPtr.delete ⟨1⟩ (AliasPtr.new 7 (Heap.empty Nat)).2).2).drops = 1 ∧
     (AliasBox.new 7 (Heap.empty Nat)).1 = RawOutcome.ok ⟨1⟩ ∧
     (AliasBox.drop ⟨1⟩ (AliasBox.new 7 (Heap.empty Nat)).2).drops = 1) :=
  ⟨by decide,
    construct_release_runs_destructor_once 7 (Heap.empty Nat) (by decide)⟩

/-- C4 fails on the code as stated: the Sync flag of AliasBox requires only
the Sync capability of T. With tSend false and tSync true, AliasBox grants
its Sync flag although the safety-for-transfer property of T is absent, while
AliasPtr refuses its Sync flag on the same capabilities. -/
theorem aliasBox_sync_grants_without_send :
    AliasBox.syncBound false true = true ∧
    AliasPtr.syncBound false true = false := by
  decide

/-- C4 amended: AliasPtr grants its Send and Sync flags exactly when T has
both the Send and the Sync capability (the conservative lint); AliasBox
grants Send exactly when T has both, but grants Sync exactly when T has the
Sync capability alone, deliberately omitting the Send requirement. -/
theorem send_sync_bounds_characterization (tSend tSync : Bool) :
    (AliasPtr.sendBound tSend tSync = true ↔ tSend = true ∧ tSync = true) ∧
    (AliasPtr.syncBound tSend tSync = true ↔ tSend = true ∧ tSync = true) ∧
    (AliasBox.sendBound tSend tSync = true ↔ tSend = true ∧ tSync = true) ∧
    (AliasBox.syncBound tSend tSync = true ↔ tSync = true) := by
  cases tSend <;> cases tSync <;> decide

/-- C5: constructing via new, with either handle variant, and then
dereferencing the returned handle yields exactly the value moved in. -/
theorem new_then_deref_yields_value {T : Type} (x : T) (h : Heap T)
    (hwf : h.WF) :
    (AliasPtr.new x h).1 = RawOutcome.ok ⟨h.next⟩ ∧
    AliasPtr.deref ⟨h.next⟩ (AliasPtr.new x h).2 = some x ∧
    (AliasBox.new x h).1 = RawOutcome.ok ⟨h.next⟩ ∧
    AliasBox.deref ⟨h.next⟩ (AliasBox.new x h).2 = some x := by
  refine ⟨aliasPtr_new_fst x h hwf, ?_, aliasBox_new_fst x h hwf, ?_⟩
  · simp [AliasPtr.new, AliasPtr.deref, boxNew]
  · simp [AliasBox.new, AliasBox.deref, boxNew]

theorem new_then_deref_yields_value_witness :
    (Heap.empty Nat).WF ∧
    ((AliasPtr.new 42 (Heap.empty Nat)).1 = RawOutcome.ok ⟨1⟩ ∧
     AliasPtr.deref ⟨1⟩ (AliasPtr.new 42 (Heap.empty Nat)).2 = some 42 ∧
     (AliasBox.new 42 (Heap.empty Nat)).1 = RawOutcome.ok ⟨1⟩ ∧
     AliasBox.deref ⟨1⟩ (AliasBox.new 42 (Heap.empty Nat)).2 = some 42) :=
  ⟨by decide, new_then_deref_yields_value 42 (Heap.empty Nat) (by decide)⟩

/-- C6: the alias operation of AliasBox returns an AliasPtr holding the same
address as the box (as exposed by as_ptr), so a Cell::set through the alias
is observed when dereferencing the box and a Cell::set through the box's
address is observed when dereferencing the alias. -/
theorem alias_same_address_two_way {T : Type} (b : AliasBox T) (h : Heap T)
    (x y : T) (hlive : (h.mem b.ptr).isSome) :
    (AliasBox.«alias» b).ptr = b.ptr ∧
    AliasBox.deref b (cellSet h (AliasBox.«alias» b).ptr x) = some x ∧
    AliasPtr.deref (AliasBox.«alias» b) (cellSet h (AliasBox.as_ptr b) y) =
      some y := by
  refine ⟨rfl, ?_, ?_⟩
  · simp [AliasBox.deref, AliasBox.«alias», cellSet, hlive]
  · simp [AliasPtr.deref, AliasBox.«alias», AliasBox.as_ptr, cellSet, hlive]

theorem alias_same_address_two_way_witness :
    ((heap1.mem (1 : Nat)).isSome = true) ∧
    ((AliasBox.«alias» (⟨1⟩ : AliasBox Nat)).ptr = (⟨1⟩ : AliasBox Nat).ptr ∧
     AliasBox.deref (⟨1⟩ : AliasBox Nat)
       (cellSet heap1 (AliasBox.«alias» (⟨1⟩ : AliasBox Nat)).ptr 42) =
         some 42 ∧
     AliasPtr.deref (AliasBox.«alias» (⟨1⟩ : AliasBox Nat))
       (cellSet heap1 (AliasBox.as_ptr (⟨1⟩ : AliasBox Nat)) 9) = some 9) :=
  ⟨by decide, alias_same_address_two_way ⟨1⟩ heap1 42 9 (by decide)⟩

/-- C7: the release operation of AliasPtr receives the handle by reference
rather than by value, so the handle survives the call un-consumed, still
holding the same address unchanged; that address is now dangling, and
dereferencing the surviving handle finds no target. -/
theorem delete_leaves_handle_intact {T : Type} (p : AliasPtr T) (h : Heap T) :
    (AliasPtr.delete p h).1 = p ∧
    ((AliasPtr.delete p h).1).ptr = p.ptr ∧
    AliasPtr.deref (AliasPtr.delete p h).1 (AliasPtr.delete p h).2 = none := by
  refine ⟨rfl, rfl, ?_⟩
  simp [AliasPtr.delete, AliasPtr.deref, boxFromRawDrop]

/-- C8: every handle holds a non-null address. Under a well-formed allocator
the construction paths, new of both variants, conversion from a Box, and
from_raw under its non-null precondition, all yield handles wrapping a
non-null address; copy, clone, alias and delete preserve non-nullness of the
address; and the heaps returned by new remain well-formed. -/
theorem handles_nonnull_invariant {T : Type} (h : Heap T) (x : T)
    (p : AliasPtr T) (b : AliasBox T) (q : Nat) (hwf : h.WF) (hq : q ≠ 0)
    (hp : p.ptr ≠ 0) (hb : b.ptr ≠ 0) :
    ((AliasPtr.new x h).1 = RawOutcome.ok ⟨h.next⟩ ∧ h.next ≠ 0) ∧
    (AliasBox.new x h).1 = RawOutcome.ok ⟨h.next⟩ ∧
    AliasPtr.fromBox T q = RawOutcome.ok ⟨q⟩ ∧
    AliasBox.fromBox T q = RawOutcome.ok ⟨q⟩ ∧
    AliasPtr.from_raw T q = RawOutcome.ok ⟨q⟩ ∧
    AliasBox.from_raw T q = RawOutcome.ok ⟨q⟩ ∧
    (AliasPtr.copy p).ptr ≠ 0 ∧
    (AliasPtr.clone p).ptr ≠ 0 ∧
    (AliasBox.«alias» b).ptr ≠ 0 ∧
    ((AliasPtr.delete p h).1).ptr ≠ 0 ∧
    ((AliasPtr.new x h).2).WF ∧ ((AliasBox.new x h).2).WF := by
  have hne : h.next ≠ 0 := Nat.one_le_iff_ne_zero.mp hwf
  refine ⟨⟨aliasPtr_new_fst x h hwf, hne⟩, aliasBox_new_fst x h hwf,
    ?_, ?_, ?_, ?_, hp, hp, hb, hp, ?_, ?_⟩
  · simp [AliasPtr.fromBox, AliasPtr.from_raw, nonNullNewUnchecked, hq]
  · simp [AliasBox.fromBox, AliasBox.from_raw, nonNullNewUnchecked, hq]
  · simp [AliasPtr.from_raw, nonNullNewUnchecked, hq]
  · simp [AliasBox.from_raw, nonNullNewUnchecked, hq]
  · simp [AliasPtr.new, boxNew, Heap.WF]
  · simp [AliasBox.new, boxNew, Heap.WF]

theorem handles_nonnull_invariant_witness :
    ((Heap.empty Nat).WF ∧ (5 : Nat) ≠ 0 ∧ (1 : Nat) ≠ 0) ∧
    (((AliasPtr.new 3 (Heap.empty Nat)).1 = RawOutcome.ok ⟨1⟩ ∧
        (1 : Nat) ≠ 0) ∧
     (AliasBox.new 3 (Heap.empty Nat)).1 = RawOutcome.ok ⟨1⟩ ∧
     AliasPtr.fromBox Nat 5 = RawOutcome.ok ⟨5⟩ ∧
     AliasBox.fromBox Nat 5 = RawOutcome.ok ⟨5⟩ ∧
     AliasPtr.from_raw Nat 5 = RawOutcome.ok ⟨5⟩ ∧
     AliasBox.from_raw Nat 5 = RawOutcome.ok ⟨5⟩ ∧
     (AliasPtr.copy (⟨1⟩ : AliasPtr Nat)).ptr ≠ 0 ∧
     (AliasPtr.clone (⟨1⟩ : AliasPtr Nat)).ptr ≠ 0 ∧
     (AliasBox.«alias» (⟨1⟩ : AliasBox Nat)).ptr ≠ 0 ∧
     ((AliasPtr.delete (⟨1⟩ : AliasPtr Nat) (Heap.empty Nat)).1).ptr ≠ 0 ∧
     ((AliasPtr.new 3 (Heap.empty Nat)).2).WF ∧
     ((AliasBox.new 3 (Heap.empty Nat)).2).WF) :=
  ⟨⟨by decide, by decide, by decide⟩,
    handles_nonnull_invariant (Heap.empty Nat) 3 ⟨1⟩ ⟨1⟩ 5
      (by decide) (by decide) (by decide) (by decide)⟩

/-- C10: AliasPtr::copy and the Clone implementation return identical results
on every handle, because copy is defined as calling clone. -/
theorem copy_eq_clone {T : Type} (p : AliasPtr T) :
    AliasPtr.copy p = AliasPtr.clone p := rfl

end AliasPtrModel
